import Mathlib

/-!
Verification of the `ServerListViewSet.list` handler of the chat-server
directory endpoint (game_chat/server/views.py), shallowly embedded in Lean.

The storage collaborator (the ORM queryset) is modelled as a Lean list of
server records; chained filtering, truncation and annotation become the
corresponding list operations. One restriction of the real collaborator is
kept: once a slice has been taken (`queryset[:n]`), a further `.filter`
call raises an uncaught exception ("Cannot filter a query once a slice has
been taken", an AssertionError or TypeError depending on the Django
version, never a ValueError), so the by_serverid step tracks whether the
qty step sliced the working set.
-/

/-- A stored server record: unique integer identifier, name, owning
category (referenced by name), and the set of member user identifiers.
The `Server` model class itself is not part of the handler file;
this record follows the data model section of the design document. -/
structure Server where
  id : Nat
  name : String
  category : String
  members : List Nat
deriving Repr, DecidableEq

/-- The request context: the five raw query parameters the handler reads
(`request.query_params.get` returns the raw string, or none when the
parameter is absent), and the authenticated user identifier
(`request.user`), none when the request is unauthenticated. -/
structure Request where
  category : Option String
  qty : Option String
  by_user : Option String
  by_serverid : Option String
  with_num_members : Option String
  user : Option Nat
deriving Repr, DecidableEq

/-- A working-set element: a server record together with its optional
`num_members` annotation (`annotate(num_members=Count('member'))`). -/
structure AnnServer where
  server : Server
  num_members : Option Nat
deriving Repr, DecidableEq

/-- A serialized server view: the wire shape has `id`, `name`, `category`
and, only when requested, `num_members`. -/
structure ServerView where
  id : Nat
  name : String
  category : String
  num_members : Option Nat
deriving Repr, DecidableEq

/-- How a run of the handler can fail: the two user-facing error kinds
(`AuthenticationFailed`, `ValidationError detail`) and unhandled Python
exceptions that escape the handler (e.g. the `ValueError` from
`int(qty)` on a non-integer `qty`). -/
inductive RunError where
  | authenticationFailed : RunError
  | validationError : String → RunError
  | unhandled : String → RunError
deriving Repr, DecidableEq

/-- Python truthiness of an optional string parameter: `if category:` is
taken exactly when the parameter is present and non-empty. -/
def truthy : Option String → Bool
  | none => false
  | some s => s ≠ ""

/-- The characters Python strips around a numeric string: the Unicode
whitespace set of CPython (Py_UNICODE_ISSPACE): tab through carriage
return (including vertical tab and form feed), the file/group/record/unit
separators, space, next line, no-break space, ogham space mark, the
en-quad..hair-space block, line and paragraph separators, narrow no-break
space, medium mathematical space and ideographic space. -/
def pyWhitespace (c : Char) : Bool :=
  let n := c.toNat
  (0x9 ≤ n && n ≤ 0xd) || (0x1c ≤ n && n ≤ 0x1f) || n == 0x20 || n == 0x85
    || n == 0xa0 || n == 0x1680 || (0x2000 ≤ n && n ≤ 0x200a) || n == 0x2028
    || n == 0x2029 || n == 0x202f || n == 0x205f || n == 0x3000

/-- Surrounding-whitespace stripping, as Python `int(...)` performs on
its string argument before parsing. -/
def pyStrip (cs : List Char) : List Char :=
  ((cs.dropWhile pyWhitespace).reverse.dropWhile pyWhitespace).reverse

/-- The first codepoint of every decimal-digit run of the Unicode
database (general category Nd, Unicode 15.0); each run is ten
consecutive codepoints valued 0 through 9. Python `int(...)` accepts any
of these digits. -/
def ndRangeStarts : List Nat :=
  [0x30, 0x660, 0x6F0, 0x7C0, 0x966, 0x9E6, 0xA66, 0xAE6, 0xB66, 0xBE6,
   0xC66, 0xCE6, 0xD66, 0xDE6, 0xE50, 0xED0, 0xF20, 0x1040, 0x1090, 0x17E0,
   0x1810, 0x1946, 0x19D0, 0x1A80, 0x1A90, 0x1B50, 0x1BB0, 0x1C40, 0x1C50,
   0xA620, 0xA8D0, 0xA900, 0xA9D0, 0xA9F0, 0xAA50, 0xABF0, 0xFF10,
   0x104A0, 0x10D30, 0x11066, 0x110F0, 0x11136, 0x111D0, 0x112F0, 0x11450,
   0x114D0, 0x11650, 0x116C0, 0x11730, 0x118E0, 0x11950, 0x11C50, 0x11D50,
   0x11DA0, 0x11F50, 0x16A60, 0x16AC0, 0x16B50, 0x1D7CE, 0x1D7D8, 0x1D7E2,
   0x1D7EC, 0x1D7F6, 0x1E140, 0x1E2F0, 0x1E4F0, 0x1E950, 0x1FBF0]

/-- The decimal value of a Unicode decimal digit, none for any other
character. -/
def decDigitVal (c : Char) : Option Nat :=
  let n := c.toNat
  ndRangeStarts.findSome? (fun s => if s ≤ n ∧ n ≤ s + 9 then some (n - s) else none)

/-- The value of a digit run. Called on a sequence whose head is a
digit; a single underscore may stand between two digits (PEP 515), any
other character, a doubled, leading or trailing underscore, fails. -/
def digitsVal (cs : List Char) (acc : Nat) : Option Nat :=
  match cs with
  | [] => some acc
  | c :: rest =>
    match decDigitVal c with
    | some d => digitsVal rest (10 * acc + d)
    | none =>
      if c = '_' then
        match rest with
        | [] => none
        | c2 :: rest2 =>
          match decDigitVal c2 with
          | some d2 => digitsVal rest2 (10 * acc + d2)
          | none => none
      else none

/-- Parse a digit run: none when empty or not starting with a digit
(in particular, an underscore cannot lead). -/
def digitsToNat (cs : List Char) : Option Nat :=
  match cs with
  | [] => none
  | c :: _ =>
    match decDigitVal c with
    | some _ => digitsVal cs 0
    | none => none

/-- Python `int(...)` applied to a string: optional surrounding
whitespace, an optional ASCII sign, then a run of Unicode decimal digits
with optional single underscores between digits. Returns none exactly
when `int` raises `ValueError`; the ORM identifier-field conversion
raises on the same inputs. -/
def pyParseInt (s : String) : Option Int :=
  match pyStrip s.data with
  | [] => none
  | c :: rest =>
    if c = '-' then (digitsToNat rest).map (fun n => -(n : Int))
    else if c = '+' then (digitsToNat rest).map (fun n => (n : Int))
    else (digitsToNat (c :: rest)).map (fun n => (n : Int))

/-- The parameters as the handler extracts them (views.py lines 42-46):
`category`, `qty`, `by_serverid` stay raw strings; `by_user` and
`with_num_members` become the booleans `param == 'true'`. -/
structure ExtractedParams where
  category : Option String
  qty : Option String
  by_user : Bool
  by_serverid : Option String
  with_num_members : Bool
deriving Repr, DecidableEq

/-- Step 1: parameter extraction. -/
def extractParams (req : Request) : ExtractedParams :=
  { category := req.category
    qty := req.qty
    by_user := req.by_user == some "true"
    by_serverid := req.by_serverid
    with_num_members := req.with_num_members == some "true" }

/-- Step 2: `if by_user and not request.user.is_authenticated: raise
AuthenticationFailed()` (views.py lines 49-50). -/
def authCheckStep (p : ExtractedParams) (user : Option Nat) : Except RunError Unit :=
  if p.by_user && !user.isSome then Except.error RunError.authenticationFailed
  else Except.ok ()

/-- The initial working set: `Server.objects.all()`, no annotation yet. -/
def initialQueryset (db : List Server) : List AnnServer :=
  db.map (fun s => { server := s, num_members := none })

/-- Step 3: `if category: queryset = queryset.filter(category__name=category)`
(views.py lines 53-54). -/
def categoryFilterStep (p : ExtractedParams) (qs : List AnnServer) : List AnnServer :=
  if truthy p.category then
    qs.filter (fun a => a.server.category == p.category.getD "")
  else qs

/-- Step 4: the membership filter (views.py lines 57-60). The inner guard
of the source is `if by_user and not request.user.is_authenticated:`,
reproduced literally; `filter(member=user_id)` keeps the records whose
member set contains `request.user.id`. -/
def byUserFilterStep (p : ExtractedParams) (user : Option Nat) (qs : List AnnServer) :
    List AnnServer :=
  if p.by_user then
    if p.by_user && !user.isSome then
      qs.filter (fun a => a.server.members.any (fun m => some m == user))
    else qs
  else qs

/-- Step 5: `if with_num_members: queryset =
queryset.annotate(num_members=Count('member'))` (views.py lines 63-64).
`Count('member')` counts the membership rows of the record; the member
table keys each (server, user) pair uniquely, so on well-formed data this
is the number of distinct members. -/
def numMembersAnnotateStep (p : ExtractedParams) (qs : List AnnServer) : List AnnServer :=
  if p.with_num_members then
    qs.map (fun a => { a with num_members := some a.server.members.length })
  else qs

/-- Step 6: `if qty: queryset = queryset[: int(qty)]` (views.py lines
67-68). `int(qty)` raises an uncaught `ValueError` on a non-integer
string; a negative bound makes the queryset slice raise an uncaught
negative-indexing error. Both escape the handler unhandled. -/
def qtyStep (p : ExtractedParams) (qs : List AnnServer) : Except RunError (List AnnServer) :=
  if truthy p.qty then
    match pyParseInt (p.qty.getD "") with
    | none => Except.error (RunError.unhandled "ValueError: invalid literal for int() with base 10")
    | some n =>
      if n < 0 then Except.error (RunError.unhandled "AssertionError: Negative indexing is not supported.")
      else Except.ok (qs.take n.toNat)
  else Except.ok qs

/-- The `ValidationError` detail string of views.py lines 76 and 79:
the raw parameter value interpolated into the f-string. -/
def serverNotFoundDetail (by_serverid : String) : String :=
  "Server with id " ++ by_serverid ++ " not found"

/-- Step 7: the `by_serverid` filter (views.py lines 71-79). When the qty
step has sliced the working set, `filter(id=by_serverid)` raises the
uncaught cannot-filter-after-slice error (not a ValueError, so the
`except ValueError` of line 77 does not catch it) before looking at the
value. Otherwise it raises `ValueError` when the raw value is not an
integer, caught and turned into a `ValidationError`; and if the filtered
working set is empty (`not queryset.exists()`), the same
`ValidationError` is raised. -/
def byServerIdStep (p : ExtractedParams) (sliced : Bool) (qs : List AnnServer) :
    Except RunError (List AnnServer) :=
  if truthy p.by_serverid then
    if sliced then
      Except.error (RunError.unhandled "Cannot filter a query once a slice has been taken")
    else
    match pyParseInt (p.by_serverid.getD "") with
    | none => Except.error (RunError.validationError (serverNotFoundDetail (p.by_serverid.getD "")))
    | some n =>
      let qs2 := qs.filter (fun a => ((a.server.id : Int) == n))
      if qs2.isEmpty then
        Except.error (RunError.validationError (serverNotFoundDetail (p.by_serverid.getD "")))
      else Except.ok qs2
  else Except.ok qs

/-- Modelled from the spec: `ServerSerializer(queryset, many=True,
context={'num_members': with_num_members})` lives in serializer.py, which
is not in the sources. Per the design document it maps each record (plus
optional annotation) to a view with `id`, `name`, `category`, and the
`num_members` field only when `with_num_members` was true. -/
def ServerSerializer (with_num_members : Bool) (qs : List AnnServer) : List ServerView :=
  qs.map (fun a =>
    { id := a.server.id
      name := a.server.name
      category := a.server.category
      num_members := if with_num_members then a.num_members else none })

namespace ServerListViewSet

/-- The handler `ServerListViewSet.list` (views.py lines 14-84), one
monolithic translation: extract the five parameters, run the
authentication check, then reassign the working set through the category
filter, the (dead) membership filter, the member-count annotation, the
qty truncation and the by_serverid filter, and serialize. A slice has
been taken exactly when the qty branch ran (its error cases abort), so
inside the by_serverid branch the sliced-queryset condition is
`truthy qty`. -/
def list (db : List Server) (req : Request) : Except RunError (List ServerView) :=
  let category := req.category
  let qty := req.qty
  let by_user := req.by_user == some "true"
  let by_serverid := req.by_serverid
  let with_num_members := req.with_num_members == some "true"
  if by_user && !req.user.isSome then
    Except.error RunError.authenticationFailed
  else
    let queryset := db.map (fun s => { server := s, num_members := none : AnnServer })
    let queryset :=
      if truthy category then
        queryset.filter (fun a => a.server.category == category.getD "")
      else queryset
    let queryset :=
      if by_user then
        if by_user && !req.user.isSome then
          queryset.filter (fun a => a.server.members.any (fun m => some m == req.user))
        else queryset
      else queryset
    let queryset :=
      if with_num_members then
        queryset.map (fun a => { a with num_members := some a.server.members.length })
      else queryset
    (if truthy qty then
        match pyParseInt (qty.getD "") with
        | none => Except.error (RunError.unhandled "ValueError: invalid literal for int() with base 10")
        | some n =>
          if n < 0 then Except.error (RunError.unhandled "AssertionError: Negative indexing is not supported.")
          else Except.ok (queryset.take n.toNat)
      else Except.ok queryset).bind (fun queryset =>
    (if truthy by_serverid then
        if truthy qty then
          Except.error (RunError.unhandled "Cannot filter a query once a slice has been taken")
        else
        match pyParseInt (by_serverid.getD "") with
        | none => Except.error (RunError.validationError (serverNotFoundDetail (by_serverid.getD "")))
        | some n =>
          let qs2 := queryset.filter (fun a => ((a.server.id : Int) == n))
          if qs2.isEmpty then
            Except.error (RunError.validationError (serverNotFoundDetail (by_serverid.getD "")))
          else Except.ok qs2
      else Except.ok queryset).bind (fun queryset =>
    Except.ok (ServerSerializer with_num_members queryset)))

/-- The handler as the fixed pipeline the design document prescribes:
parameter extraction, authentication check, category filter, membership
filter, num_members annotation, qty truncation, by_serverid filter,
serialization, in exactly that order. -/
def pipeline (db : List Server) (req : Request) : Except RunError (List ServerView) :=
  let p := extractParams req
  (authCheckStep p req.user).bind (fun _ =>
    (qtyStep p
        (numMembersAnnotateStep p
          (byUserFilterStep p req.user
            (categoryFilterStep p (initialQueryset db))))).bind (fun qs =>
      (byServerIdStep p (truthy p.qty) qs).bind (fun qs2 =>
        Except.ok (ServerSerializer p.with_num_members qs2))))

/-- The handler with the storage collaborator threaded explicitly: every
storage access is a read, so each step passes the stored collection
through unchanged, and the handler returns the store it was given next to
its result. -/
def listSt (db : List Server) (req : Request) :
    Except RunError (List ServerView) × List Server :=
  let p := extractParams req
  match authCheckStep p req.user with
  | Except.error e => (Except.error e, db)
  | Except.ok _ =>
    let (qs0, db) := (initialQueryset db, db)
    let (qs1, db) := (categoryFilterStep p qs0, db)
    let (qs2, db) := (byUserFilterStep p req.user qs1, db)
    let (qs3, db) := (numMembersAnnotateStep p qs2, db)
    match qtyStep p qs3 with
    | Except.error e => (Except.error e, db)
    | Except.ok qs4 =>
      match byServerIdStep p (truthy p.qty) qs4 with
      | Except.error e => (Except.error e, db)
      | Except.ok qs5 => (Except.ok (ServerSerializer p.with_num_members qs5), db)

end ServerListViewSet

/-- Replacing an empty-string parameter value by an absent one, for the
three parameters the handler consumes through Python truthiness. -/
def normalizeEmpty (req : Request) : Request :=
  { req with
    category := if req.category = some "" then none else req.category
    qty := if req.qty = some "" then none else req.qty
    by_serverid := if req.by_serverid = some "" then none else req.by_serverid }

/-- Whether a record passes the filters the handler applies other than
the qty truncation: the category filter and the by_serverid filter, each
when its parameter is truthy (the membership filter of views.py lines
57-60 never fires, its guard being unsatisfiable past the
authentication check). -/
def otherFilters (req : Request) (s : Server) : Bool :=
  (if truthy req.category then s.category == req.category.getD "" else true)
    &&
  (if truthy req.by_serverid then
      match pyParseInt (req.by_serverid.getD "") with
      | some n => ((s.id : Int) == n)
      | none => false
    else true)

/-- The number of stored records matching the filters other than qty. -/
def matchingCount (db : List Server) (req : Request) : Nat :=
  (db.filter (otherFilters req)).length

/-- The category filter at the level of plain server records. -/
def catFilterServers (p : ExtractedParams) (db : List Server) : List Server :=
  if truthy p.category then db.filter (fun s => s.category == p.category.getD "") else db

/-- The view a record serializes to, annotation included when requested. -/
def viewFun (p : ExtractedParams) (s : Server) : ServerView :=
  { id := s.id
    name := s.name
    category := s.category
    num_members := if p.with_num_members then some s.members.length else none }

/-- The qty truncation at the level of plain server records. -/
def qtyServers (p : ExtractedParams) (l : List Server) : Except RunError (List Server) :=
  if truthy p.qty then
    match pyParseInt (p.qty.getD "") with
    | none => Except.error (RunError.unhandled "ValueError: invalid literal for int() with base 10")
    | some n =>
      if n < 0 then Except.error (RunError.unhandled "AssertionError: Negative indexing is not supported.")
      else Except.ok (l.take n.toNat)
  else Except.ok l

/-- The by_serverid filter at the level of plain server records. -/
def byServerIdServers (p : ExtractedParams) (sliced : Bool) (l : List Server) : Except RunError (List Server) :=
  if truthy p.by_serverid then
    if sliced then
      Except.error (RunError.unhandled "Cannot filter a query once a slice has been taken")
    else
    match pyParseInt (p.by_serverid.getD "") with
    | none => Except.error (RunError.validationError (serverNotFoundDetail (p.by_serverid.getD "")))
    | some n =>
      if (l.filter (fun s => ((s.id : Int) == n))).isEmpty then
        Except.error (RunError.validationError (serverNotFoundDetail (p.by_serverid.getD "")))
      else Except.ok (l.filter (fun s => ((s.id : Int) == n)))
  else Except.ok l

/-- The handler computation carried out on plain server records: the
annotation and serialization maps commute with every filter and with the
truncation, so the handler is this record-level computation followed by
one map to views. -/
def serversResult (db : List Server) (req : Request) : Except RunError (List Server) :=
  let p := extractParams req
  if p.by_user && !req.user.isSome then
    Except.error RunError.authenticationFailed
  else
    (qtyServers p (catFilterServers p db)).bind (byServerIdServers p (truthy p.qty))

/-- The annotation a record carries in the working set. -/
def annFun (p : ExtractedParams) (s : Server) : AnnServer :=
  { server := s
    num_members := if p.with_num_members then some s.members.length else none }


/-! ## Concrete instances used by witnesses and counterexamples -/

/-- A one-record store whose only server has no members. -/
def c1Server : Server := ⟨1, "alpha", "general", []⟩

/-- An authenticated request (user 42) asking `by_user=true`. -/
def c1Req : Request := ⟨none, none, some "true", none, none, some 42⟩

/-- An unauthenticated request with `by_user=true`. -/
def c3Req : Request := ⟨none, none, some "true", none, none, none⟩

def c4Db : List Server := [⟨1, "alpha", "general", [5, 6]⟩]

/-- A request with `with_num_members=true` and nothing else. -/
def c4Req : Request := ⟨none, none, none, none, some "true", none⟩

def c5Db : List Server :=
  [⟨1, "alpha", "gaming", []⟩, ⟨2, "beta", "gaming", []⟩, ⟨3, "gamma", "chess", []⟩]

/-- A request with `qty=2` and nothing else. -/
def c5Req : Request := ⟨none, some "2", none, none, none, none⟩

theorem list_eq_pipeline (db : List Server) (req : Request) :
    ServerListViewSet.list db req = ServerListViewSet.pipeline db req := by
  simp only [ServerListViewSet.list, ServerListViewSet.pipeline, extractParams,
    authCheckStep, initialQueryset, categoryFilterStep, byUserFilterStep,
    numMembersAnnotateStep, qtyStep, byServerIdStep, ServerSerializer]
  cases hq : pyParseInt (req.qty.getD "") <;>
    cases hs : pyParseInt (req.by_serverid.getD "") <;>
    by_cases hb : req.by_user = some "true" ∧ req.user = none <;>
    simp [hq, hs, hb, Except.bind]

theorem byUserFilterStep_noop (p : ExtractedParams) (u : Option Nat)
    (qs : List AnnServer) (h : (p.by_user && !u.isSome) = false) :
    byUserFilterStep p u qs = qs := by
  unfold byUserFilterStep
  rw [h]
  simp

theorem pre_qty_normal (p : ExtractedParams) (u : Option Nat) (db : List Server)
    (h : (p.by_user && !u.isSome) = false) :
    numMembersAnnotateStep p (byUserFilterStep p u (categoryFilterStep p (initialQueryset db)))
      = (catFilterServers p db).map (annFun p) := by
  rw [byUserFilterStep_noop p u _ h]
  unfold numMembersAnnotateStep categoryFilterStep initialQueryset catFilterServers
  cases hw : p.with_num_members <;> cases hc : truthy p.category <;>
    simp only [hw, hc, Bool.false_eq_true, if_true, if_false, List.filter_map,
      List.map_map, Function.comp_def] <;>
    refine List.map_congr_left (fun a ha => ?_) <;> simp [annFun, hw]

theorem serializer_annFun (p : ExtractedParams) (l : List Server) :
    ServerSerializer p.with_num_members (l.map (annFun p)) = l.map (viewFun p) := by
  cases hw : p.with_num_members <;>
    simp [ServerSerializer, annFun, viewFun, hw, List.map_map, Function.comp_def]

theorem filter_id_annFun (p : ExtractedParams) (n : Int) (l : List Server) :
    (l.map (annFun p)).filter (fun a => ((a.server.id : Int) == n))
      = (l.filter (fun s => ((s.id : Int) == n))).map (annFun p) := by
  simp [List.filter_map, Function.comp_def, annFun]

theorem qtyStep_norm (p : ExtractedParams) (l : List Server) :
    qtyStep p (l.map (annFun p)) = Except.map (List.map (annFun p)) (qtyServers p l) := by
  unfold qtyStep qtyServers
  cases ht : truthy p.qty <;> cases hq : pyParseInt (p.qty.getD "") <;>
    simp [Except.map, List.map_take]
  rename_i n
  by_cases h0 : n < 0 <;> simp [h0, Except.map, List.map_take]

theorem byServerIdStep_norm (p : ExtractedParams) (sliced : Bool) (l : List Server) :
    byServerIdStep p sliced (l.map (annFun p))
      = Except.map (List.map (annFun p)) (byServerIdServers p sliced l) := by
  unfold byServerIdStep byServerIdServers
  cases hs : truthy p.by_serverid <;> cases hsl : sliced <;>
    cases hn : pyParseInt (p.by_serverid.getD "") <;>
    simp [Except.map, filter_id_annFun]
  rename_i n
  by_cases hP : ∀ a ∈ l, ¬((a.id : Int) = n)
  · rw [if_pos hP, if_pos hP]
  · rw [if_neg hP, if_neg hP]

theorem list_normalize (db : List Server) (req : Request) :
    ServerListViewSet.list db req
      = Except.map (List.map (viewFun (extractParams req))) (serversResult db req) := by
  rw [list_eq_pipeline]
  unfold ServerListViewSet.pipeline serversResult authCheckStep
  dsimp only
  cases hb : ((extractParams req).by_user && !req.user.isSome)
  case true => simp only [hb]; simp [Except.bind, Except.map]
  case false =>
    simp only [hb, Bool.false_eq_true, if_false, Except.bind]
    rw [pre_qty_normal _ _ _ hb, qtyStep_norm]
    cases he : qtyServers (extractParams req) (catFilterServers (extractParams req) db) with
    | error e => simp [he, Except.map]
    | ok l =>
      simp only [he, Except.map, byServerIdStep_norm]
      cases h2 : byServerIdServers (extractParams req) (truthy (extractParams req).qty) l with
      | error e => simp [h2, Except.map]
      | ok l2 => simp [h2, Except.map, serializer_annFun]

/-! ## Helper lemmas -/

theorem catFilterServers_sublist (p : ExtractedParams) (db : List Server) :
    (catFilterServers p db).Sublist db := by
  unfold catFilterServers
  split
  · exact List.filter_sublist db
  · exact List.Sublist.refl db

theorem qtyServers_ok_sublist (p : ExtractedParams) (l l2 : List Server)
    (h : qtyServers p l = Except.ok l2) : l2.Sublist l := by
  unfold qtyServers at h
  split at h
  · split at h
    · cases h
    · split at h
      · cases h
      · cases h; exact List.take_sublist _ _
  · cases h; exact List.Sublist.refl l

theorem byServerIdServers_ok_sublist (p : ExtractedParams) (sliced : Bool) (l l2 : List Server)
    (h : byServerIdServers p sliced l = Except.ok l2) : l2.Sublist l := by
  simp only [byServerIdServers] at h
  split at h
  · split at h
    · cases h
    · split at h
      · cases h
      · split at h
        · cases h
        · cases h; exact List.filter_sublist l
  · cases h; exact List.Sublist.refl l

theorem serversResult_ok_sublist (db : List Server) (req : Request) (l : List Server)
    (h : serversResult db req = Except.ok l) : l.Sublist db := by
  simp only [serversResult] at h
  split at h
  · cases h
  · cases hq : qtyServers (extractParams req) (catFilterServers (extractParams req) db) with
    | error e => rw [hq] at h; cases h
    | ok l1 =>
      rw [hq] at h
      exact ((byServerIdServers_ok_sublist _ _ _ _ h).trans
        (qtyServers_ok_sublist _ _ _ hq)).trans (catFilterServers_sublist _ db)

theorem pyParseInt_some_ne_empty (q : String) (n : Int) (hp : pyParseInt q = some n) :
    q ≠ "" := by
  rintro rfl
  rw [show pyParseInt "" = none from rfl] at hp
  cases hp

theorem listSt_snd (db : List Server) (req : Request) :
    (ServerListViewSet.listSt db req).2 = db := by
  unfold ServerListViewSet.listSt
  dsimp only
  split
  · rfl
  · split
    · rfl
    · split <;> rfl

theorem listSt_fst (db : List Server) (req : Request) :
    (ServerListViewSet.listSt db req).1 = ServerListViewSet.list db req := by
  rw [list_eq_pipeline]
  unfold ServerListViewSet.listSt ServerListViewSet.pipeline
  dsimp only
  split
  · rename_i e h; simp [h, Except.bind]
  · rename_i u h
    simp only [h, Except.bind]
    split
    · rename_i e h2; simp [h2]
    · rename_i qs h2; simp only [h2]; split <;> rename_i h3 <;> simp [h3]

theorem matchingCount_no_sid (db : List Server) (req : Request)
    (hsid : truthy req.by_serverid = false) :
    matchingCount db req = (catFilterServers (extractParams req) db).length := by
  unfold matchingCount otherFilters catFilterServers
  rw [hsid]
  cases hc : truthy req.category <;>
    simp [hc, extractParams]

/-! ## The claims -/

/-- Claim C1: the specified behavior — with `by_user=true` and an
authenticated requester, restrict the working set to the records whose
member set contains the requester — does not hold of the code: the inner
guard of views.py line 58 repeats the line-49 condition, which can no
longer be true there, so the membership filter never runs. At this input
the authenticated user 42 is a member of no server, yet the whole store
is returned. -/
theorem claim_C1 :
    ServerListViewSet.list [c1Server] c1Req
      = Except.ok [⟨1, "alpha", "general", none⟩]
    ∧ c1Server.members.contains 42 = false := by
  exact ⟨rfl, rfl⟩

/-- Claim C3: whenever `by_user` is the string `true` and the request has
no authenticated user, the handler fails with AuthenticationError, for
every store and every combination of the other parameters. -/
theorem claim_C3 (db : List Server) (req : Request)
    (h1 : req.by_user = some "true") (h2 : req.user = none) :
    ServerListViewSet.list db req = Except.error RunError.authenticationFailed := by
  unfold ServerListViewSet.list
  simp [h1, h2]

/-- Claim C3, witness at a concrete unauthenticated request. -/
theorem claim_C3_witness :
    ServerListViewSet.list [] c3Req = Except.error RunError.authenticationFailed :=
  claim_C3 [] c3Req rfl rfl

/-- Claim C4: when `with_num_members` is the string `true`, every view in
a successful response corresponds to a stored record and carries
`num_members` equal to that record's number of distinct members (member
sets are duplicate-free, per the data model). -/
theorem claim_C4 (db : List Server) (req : Request) (vs : List ServerView)
    (hw : req.with_num_members = some "true")
    (hnd : ∀ s ∈ db, s.members.Nodup)
    (hok : ServerListViewSet.list db req = Except.ok vs) :
    ∀ v ∈ vs, ∃ s ∈ db, v.id = s.id ∧ v.name = s.name
      ∧ v.num_members = some s.members.dedup.length := by
  rw [list_normalize] at hok
  cases hres : serversResult db req with
  | error e => rw [hres] at hok; cases hok
  | ok l =>
    rw [hres] at hok
    simp only [Except.map] at hok
    injection hok with hok
    intro v hv
    rw [← hok] at hv
    rw [List.mem_map] at hv
    obtain ⟨s, hs, rfl⟩ := hv
    have hsdb : s ∈ db := (serversResult_ok_sublist db req l hres).subset hs
    refine ⟨s, hsdb, rfl, rfl, ?_⟩
    have hwp : (extractParams req).with_num_members = true := by
      simp [extractParams, hw]
    simp [viewFun, hwp, List.Nodup.dedup (hnd s hsdb)]

/-- Claim C4, witness: a two-member server annotated with count 2. -/
theorem claim_C4_witness :
    ∃ s ∈ c4Db, (⟨1, "alpha", "general", some 2⟩ : ServerView).id = s.id
      ∧ (⟨1, "alpha", "general", some 2⟩ : ServerView).name = s.name
      ∧ (⟨1, "alpha", "general", some 2⟩ : ServerView).num_members
          = some s.members.dedup.length :=
  claim_C4 c4Db c4Req _ rfl (by decide) rfl
    (⟨1, "alpha", "general", some 2⟩ : ServerView) (List.mem_singleton.mpr rfl)

/-- Claim C5: when `qty` parses as a non-negative integer N and the
handler succeeds, the response length is min(N, matching_count), the
count of records passing the filters the handler applies besides the
truncation (record identifiers are unique, per the data model). -/
theorem claim_C5 (db : List Server) (req : Request) (q : String) (N : Int)
    (vs : List ServerView)
    (_hids : (db.map Server.id).Nodup)
    (hq : req.qty = some q) (hp : pyParseInt q = some N) (h0 : 0 ≤ N)
    (hok : ServerListViewSet.list db req = Except.ok vs) :
    vs.length = min N.toNat (matchingCount db req) := by
  have hne : q ≠ "" := pyParseInt_some_ne_empty q N hp
  rw [list_normalize] at hok
  cases hres : serversResult db req with
  | error e => rw [hres] at hok; cases hok
  | ok l =>
    rw [hres] at hok
    simp only [Except.map] at hok
    injection hok with hok
    have hlen : vs.length = l.length := by rw [← hok, List.length_map]
    simp only [serversResult] at hres
    split at hres
    · cases hres
    · have hqs : qtyServers (extractParams req) (catFilterServers (extractParams req) db)
          = Except.ok ((catFilterServers (extractParams req) db).take N.toNat) := by
        unfold qtyServers
        have ht : truthy (extractParams req).qty = true := by
          simp [extractParams, hq, truthy, hne]
        rw [ht]
        have hgd : (extractParams req).qty.getD "" = q := by simp [extractParams, hq]
        rw [hgd, hp]
        simp [not_lt.mpr h0]
      rw [hqs] at hres
      simp only [Except.bind] at hres
      have ht : truthy (extractParams req).qty = true := by
        simp [extractParams, hq, truthy, hne]
      unfold byServerIdServers at hres
      rw [ht] at hres
      split at hres
      · simp at hres
      · rename_i hsid
        have hsid2 : truthy (extractParams req).by_serverid = false := by
          revert hsid
          cases truthy (extractParams req).by_serverid <;> simp
        injection hres with hres
        rw [hlen, ← hres, List.length_take, matchingCount_no_sid db req hsid2]

/-- Claim C5, witness: `qty=2` over three stored records returns two
views, min(2, 3). -/
theorem claim_C5_witness :
    ([⟨1, "alpha", "gaming", none⟩, ⟨2, "beta", "gaming", none⟩] : List ServerView).length
      = min (Int.toNat 2) (matchingCount c5Db c5Req) :=
  claim_C5 c5Db c5Req "2" 2 _ (by decide) rfl rfl (by decide) rfl

/-- Claim C6: the handler equals the fixed pipeline — parameter
extraction, authentication check, category filter, membership filter,
num_members annotation, qty truncation, by_serverid filter,
serialization — applied in exactly that order, for every store and
request; in particular its result and its surfaced error are those of
this sequence. -/
theorem claim_C6 (db : List Server) (req : Request) :
    ServerListViewSet.list db req = ServerListViewSet.pipeline db req :=
  list_eq_pipeline db req

/-- Claim C9: the handler is read-only with respect to the stored
collection: threading the store explicitly through every storage access,
the store that comes out is the store that went in, on every request,
succeeding or failing, and the result agrees with the handler. -/
theorem claim_C9 (db : List Server) (req : Request) :
    (ServerListViewSet.listSt db req).2 = db
      ∧ (ServerListViewSet.listSt db req).1 = ServerListViewSet.list db req :=
  ⟨listSt_snd db req, listSt_fst db req⟩

/-- Claim C10: an empty-string `category`, `qty` or `by_serverid` is
treated exactly as an absent one — replacing any combination of
empty-string values of these three parameters by absence leaves the
handler's outcome unchanged. -/
theorem claim_C10 (db : List Server) (req : Request) :
    ServerListViewSet.list db req = ServerListViewSet.list db (normalizeEmpty req) := by
  obtain ⟨c, q, bu, bs, wm, u⟩ := req
  unfold normalizeEmpty
  by_cases hc : c = some "" <;> by_cases hq : q = some "" <;> by_cases hs : bs = some "" <;>
    simp only [hc, hq, hs, if_true, if_false] <;>
    unfold ServerListViewSet.list <;>
    simp [truthy]
